import Mathlib

/-!
Verification of the chess-clock coordination core of ASTXRTYS/ChessApp.

The development shallowly embeds, from the JavaScript sources:
  * the reactive store of src/core/state.js (`dispatchA`, mirroring the
    `dispatch` switch restricted to the game-relevant actions);
  * the event bus of src/core/events.js (`emit`, `once` via the
    defunctionalised single-topic model `emitOnce`);
  * the rules of src/modules/game/rules.js (`canPlayerSwitch`,
    `isValidTime`);
  * the clock engine of src/modules/game/engine.js (`handleStart`,
    `handlePause`, `handlePlayerClick`, `setTimeE`, `tick`,
    `checkTimeThresholds`, `handleVictory`, `resetGameE`), together with the
    synchronous match-stats listener of src/modules/gamification/stats.js
    (`statsListener`).

Wall-clock timestamps and the floating-point aggregates of the stats module
(`avgMoveTime`, `longestThink`, `fastestMove`) are outside the model; the
fields the properties are about (the `moves` list and the clock record) are
embedded in full.
-/

namespace ChessApp

/-- One entry of `currentMatchStats.moves` (src/modules/gamification/stats.js,
`recordMove`).  The source entry also carries a wall-clock timestamp and the
think time derived from `Date.now()`; wall-clock data is outside the model,
which keeps the fields the properties mention. -/
structure MoveRec where
  player : Nat
  timeRemaining : Int
  deriving Repr, DecidableEq

/-- The game-relevant fields of the store record (src/core/state.js,
`initialState`).  `currentMatchStats` is represented by its `moves` list
(`matchMoves`); the profile, palette, audio and achievement fields are not
touched by any property considered here and are omitted. -/
structure St where
  player1Time : Int
  player2Time : Int
  player1Moves : Nat
  player2Moves : Nat
  activePlayer : Nat
  isPaused : Bool
  defaultTime : Int
  matchMoves : List MoveRec
  deriving Repr, DecidableEq

/-- The game-relevant part of `initialState` in src/core/state.js. -/
def initialState : St :=
  { player1Time := 300
    player2Time := 300
    player1Moves := 0
    player2Moves := 0
    activePlayer := 0
    isPaused := true
    defaultTime := 300
    matchMoves := [] }

/-- The store actions dispatched by the engine and the stats module
(src/core/state.js, `ACTIONS`), restricted to the game-relevant ones.
`UPDATE_MATCH_STATS` is modelled with the `moves` field of its payload, the
only field the properties mention; the source spreads the payload over
`currentMatchStats`, which for a payload carrying `moves` replaces the list. -/
inductive Action where
  | SET_TIME (player : Nat) (time : Int)
  | DECREMENT_TIME (player : Nat)
  | SET_ACTIVE_PLAYER (player : Nat)
  | INCREMENT_MOVES (player : Nat)
  | TOGGLE_PAUSE
  | SET_PAUSE (paused : Bool)
  | RESET_GAME
  | UPDATE_MATCH_STATS (moves : List MoveRec)
  | SET_DEFAULT_TIME (time : Int)
  deriving Repr, DecidableEq

/-- `dispatch` from src/core/state.js, case by case along the `switch`.
Subscriber notification does not change the record and is treated at the
engine level, where the stats listener reacts to engine events.  Note that
`SET_TIME` and `SET_DEFAULT_TIME` store their payload unvalidated, and that
`DECREMENT_TIME` only decrements a strictly positive counter. -/
def dispatchA (st : St) : Action → St
  | .SET_TIME player time =>
      if player = 1 then { st with player1Time := time }
      else if player = 2 then { st with player2Time := time }
      else st
  | .DECREMENT_TIME player =>
      if player = 1 ∧ st.player1Time > 0 then
        { st with player1Time := st.player1Time - 1 }
      else if player = 2 ∧ st.player2Time > 0 then
        { st with player2Time := st.player2Time - 1 }
      else st
  | .SET_ACTIVE_PLAYER player => { st with activePlayer := player }
  | .INCREMENT_MOVES player =>
      if player = 1 then { st with player1Moves := st.player1Moves + 1 }
      else if player = 2 then { st with player2Moves := st.player2Moves + 1 }
      else st
  | .TOGGLE_PAUSE => { st with isPaused := !st.isPaused }
  | .SET_PAUSE paused => { st with isPaused := paused }
  | .RESET_GAME =>
      { st with
        player1Time := st.defaultTime
        player2Time := st.defaultTime
        player1Moves := 0
        player2Moves := 0
        activePlayer := 0
        isPaused := true
        matchMoves := [] }
  | .UPDATE_MATCH_STATS moves => { st with matchMoves := moves }
  | .SET_DEFAULT_TIME time => { st with defaultTime := time }

/-- A sequence of dispatch calls applied to the initial state. -/
def runStore (acts : List Action) : St :=
  acts.foldl dispatchA initialState

/-- `canPlayerSwitch` from src/modules/game/rules.js. -/
def canPlayerSwitch (player activePlayer : Nat) : Bool :=
  if activePlayer = 0 then true else decide (activePlayer = player)

/-- `isValidTime` from src/modules/game/rules.js (`time > 0 && time < 86400`;
the `typeof` check is subsumed by the integer payload type). -/
def isValidTime (time : Int) : Bool :=
  decide (0 < time ∧ time < 86400)

/-- `CONFIG.LOW_TIME_THRESHOLD` from src/core/config.js. -/
def LOW_TIME_THRESHOLD : Int := 60

/-- `CONFIG.CRITICAL_THRESHOLD` from src/core/config.js. -/
def CRITICAL_THRESHOLD : Int := 10

/-- The events the engine emits on the bus (src/modules/game/engine.js):
`game:started`, `game:tick`, `game:low-time`, `game:critical-time`,
`game:player-switched`, `game:victory`, `game:paused`, `game:resumed`,
`game:reset`. -/
inductive Ev where
  | started (player : Nat)
  | tickEv (player : Nat) (timeRemaining : Int)
  | lowTime (player : Nat) (timeRemaining : Int)
  | criticalTime (player : Nat) (timeRemaining : Int)
  | playerSwitched (fromP toP moveNumber : Nat)
  | victory (winner loser : Nat) (winnerTimeRemaining : Int)
  | pausedEv
  | resumedEv
  | resetEv
  deriving Repr, DecidableEq

/-- One per-player entry of `thresholdFlags` in src/modules/game/engine.js. -/
structure ThFlags where
  low : Bool
  critical : Bool
  deriving Repr, DecidableEq

/-- The engine's state: the store record, the scheduler (`timerInterval`,
armed or not), the per-player threshold flags, and the trace of events
emitted so far (the emissions of `emit` in src/core/events.js, recorded in
order). -/
structure Eng where
  st : St
  timerOn : Bool
  flags1 : ThFlags
  flags2 : ThFlags
  events : List Ev
  deriving Repr, DecidableEq

/-- Engine and store at process start: `initialState`, no interval armed,
threshold flags clear, nothing emitted. -/
def engInit : Eng :=
  { st := initialState
    timerOn := false
    flags1 := ⟨false, false⟩
    flags2 := ⟨false, false⟩
    events := [] }

/-- `thresholdFlags[playerKey]` for `playerKey` built from the player id.
The source template lookup is only reached with ids 1 and 2 (the UI emits no
other id; see src/modules/ui/shell.js and src/modules/input/gestures.js); the
fall-through to the player-2 record keeps the function total. -/
def getFlags (e : Eng) (p : Nat) : ThFlags :=
  if p = 1 then e.flags1 else e.flags2

/-- Set the `low` flag of player `p` (same totalisation note as `getFlags`). -/
def setLowFlag (e : Eng) (p : Nat) : Eng :=
  if p = 1 then { e with flags1 := { e.flags1 with low := true } }
  else { e with flags2 := { e.flags2 with low := true } }

/-- Set the `critical` flag of player `p`. -/
def setCriticalFlag (e : Eng) (p : Nat) : Eng :=
  if p = 1 then { e with flags1 := { e.flags1 with critical := true } }
  else { e with flags2 := { e.flags2 with critical := true } }

/-- Dispatch one store action from the engine. -/
def dispatchE (e : Eng) (a : Action) : Eng :=
  { e with st := dispatchA e.st a }

/-- The synchronous reaction of the stats module
(src/modules/gamification/stats.js): `startMatch` on `game:started` resets
`currentMatchStats.moves` to the empty list, `handlePlayerSwitch` on
`game:player-switched` appends one entry recording the leaving player and the
time read from `player<from>Time`, and the victory handler only reads state
and external storage.  The derived floating-point aggregates recomputed by
`recordMove` are outside the model. -/
def statsListener (e : Eng) (ev : Ev) : Eng :=
  match ev with
  | .started _ => dispatchE e (.UPDATE_MATCH_STATS [])
  | .playerSwitched f _ _ =>
      let tr := if f = 1 then e.st.player1Time
                else if f = 2 then e.st.player2Time else 0
      dispatchE e (.UPDATE_MATCH_STATS (e.st.matchMoves ++ [⟨f, tr⟩]))
  | _ => e

/-- `emit` on the bus with the stats module attached (it registers for
`game:started`, `game:player-switched` and `game:victory` in
`setupEventListeners` of src/modules/gamification/stats.js).  The emission is
appended to the trace. -/
def emitE (e : Eng) (ev : Ev) : Eng :=
  statsListener { e with events := e.events ++ [ev] } ev

/-- `startTimer` from src/modules/game/engine.js: arm the interval unless it
is already armed. -/
def startTimer (e : Eng) : Eng :=
  if e.timerOn then e else { e with timerOn := true }

/-- `stopTimer` from src/modules/game/engine.js: disarm the interval if armed. -/
def stopTimer (e : Eng) : Eng :=
  if e.timerOn then { e with timerOn := false } else e

/-- The reassignment of `thresholdFlags` to all-false (done by `setTime` and
`resetGame` in src/modules/game/engine.js). -/
def resetFlags (e : Eng) : Eng :=
  { e with flags1 := ⟨false, false⟩, flags2 := ⟨false, false⟩ }

/-- `handleStart` from src/modules/game/engine.js. -/
def handleStart (e : Eng) : Eng :=
  if e.st.activePlayer ≠ 0 ∧ e.st.isPaused then
    emitE (startTimer (dispatchE e (.SET_PAUSE false))) .resumedEv
  else e

/-- `handlePause` from src/modules/game/engine.js. -/
def handlePause (e : Eng) : Eng :=
  if e.st.activePlayer = 0 then e
  else if e.st.isPaused then
    emitE (startTimer (dispatchE e (.SET_PAUSE false))) .resumedEv
  else
    emitE (stopTimer (dispatchE e (.SET_PAUSE true))) .pausedEv

/-- `get` of `player<p>Moves` (the template lookup in `handlePlayerClick`);
only reached with `p = activePlayer ∈ {1, 2}`. -/
def playerMovesGet (st : St) (p : Nat) : Nat :=
  if p = 1 then st.player1Moves else if p = 2 then st.player2Moves else 0

/-- `handlePlayerClick` from src/modules/game/engine.js: validate with
`canPlayerSwitch`, ignore clicks while paused mid-game, start the game on the
first click, otherwise record the move and hand the turn over. -/
def handlePlayerClick (e : Eng) (player : Nat) : Eng :=
  let activePlayer := e.st.activePlayer
  let isPaused := e.st.isPaused
  if canPlayerSwitch player activePlayer then
    if isPaused ∧ activePlayer ≠ 0 then e
    else if activePlayer = 0 then
      emitE
        (startTimer
          (dispatchE (dispatchE e (.SET_ACTIVE_PLAYER player)) (.SET_PAUSE false)))
        (.started player)
    else
      let newPlayer := if player = 1 then 2 else 1
      let moveNumber := playerMovesGet e.st player + 1
      emitE
        (dispatchE (dispatchE e (.INCREMENT_MOVES player)) (.SET_ACTIVE_PLAYER newPlayer))
        (.playerSwitched player newPlayer moveNumber)
  else e

/-- `setTime` from src/modules/game/engine.js: seed the default and both
players, then clear the threshold flags. -/
def setTimeE (e : Eng) (seconds : Int) : Eng :=
  resetFlags
    (dispatchE
      (dispatchE (dispatchE e (.SET_DEFAULT_TIME seconds)) (.SET_TIME 1 seconds))
      (.SET_TIME 2 seconds))

/-- `handleTimeSelected` from src/modules/game/engine.js. -/
def handleTimeSelected (e : Eng) (seconds : Int) : Eng :=
  if isValidTime seconds then setTimeE e seconds else e

/-- First half of `checkTimeThresholds` in src/modules/game/engine.js: the
edge-triggered low-time notification (the flag is set before emitting). -/
def checkLowThreshold (e : Eng) (player : Nat) (timeRemaining : Int) : Eng :=
  if timeRemaining = LOW_TIME_THRESHOLD ∧ (getFlags e player).low = false then
    emitE (setLowFlag e player) (.lowTime player timeRemaining)
  else e

/-- Second half of `checkTimeThresholds`: the edge-triggered critical-time
notification. -/
def checkCriticalThreshold (e : Eng) (player : Nat) (timeRemaining : Int) : Eng :=
  if timeRemaining = CRITICAL_THRESHOLD ∧ (getFlags e player).critical = false then
    emitE (setCriticalFlag e player) (.criticalTime player timeRemaining)
  else e

/-- `checkTimeThresholds` from src/modules/game/engine.js: the low check
followed by the critical check, the second seeing the flags and emissions of
the first. -/
def checkTimeThresholds (e : Eng) (player : Nat) (timeRemaining : Int) : Eng :=
  checkCriticalThreshold (checkLowThreshold e player timeRemaining) player
    timeRemaining

/-- `handleVictory` from src/modules/game/engine.js: stop the scheduler, read
the winner's remaining time, freeze the clock, clear the active player, then
notify.  `winner` is always 1 or 2 at the call site. -/
def handleVictory (e : Eng) (winner : Nat) : Eng :=
  let e1 := stopTimer e
  let loser := if winner = 1 then 2 else 1
  let winnerTimeRemaining :=
    if winner = 1 then e1.st.player1Time else e1.st.player2Time
  emitE
    (dispatchE (dispatchE e1 (.SET_PAUSE true)) (.SET_ACTIVE_PLAYER 0))
    (.victory winner loser winnerTimeRemaining)

/-- `tick` from src/modules/game/engine.js: decrement the active player's
time, notify, check thresholds, and finish the game when the updated time has
reached zero. -/
def tick (e : Eng) : Eng :=
  let activePlayer := e.st.activePlayer
  let isPaused := e.st.isPaused
  if activePlayer = 0 ∨ isPaused then e
  else
    let e1 := dispatchE e (.DECREMENT_TIME activePlayer)
    let timeRemaining :=
      if activePlayer = 1 then e1.st.player1Time else e1.st.player2Time
    let e2 := emitE e1 (.tickEv activePlayer timeRemaining)
    let e3 := checkTimeThresholds e2 activePlayer timeRemaining
    if timeRemaining ≤ 0 then
      handleVictory e3 (if activePlayer = 1 then 2 else 1)
    else e3

/-- `resetGame` from src/modules/game/engine.js. -/
def resetGameE (e : Eng) : Eng :=
  emitE (resetFlags (dispatchE (stopTimer e) .RESET_GAME)) .resetEv

/-- The external stimuli of the engine: the `ui:*` topics it subscribes to in
`setupEventListeners`, plus the firing of the armed 1 Hz interval. -/
inductive UiEv where
  | startClicked
  | pauseClicked
  | resetClicked
  | playerClicked (player : Nat)
  | timeSelected (seconds : Int)
  | tickFire
  deriving Repr, DecidableEq

/-- One external stimulus.  The interval callback only runs while the
scheduler is armed (`setInterval` active), hence the guard on `timerOn`. -/
def step (e : Eng) : UiEv → Eng
  | .startClicked => handleStart e
  | .pauseClicked => handlePause e
  | .resetClicked => resetGameE e
  | .playerClicked p => handlePlayerClick e p
  | .timeSelected s => handleTimeSelected e s
  | .tickFire => if e.timerOn then tick e else e

/-- Run a sequence of external stimuli. -/
def runEng (e : Eng) (tr : List UiEv) : Eng :=
  tr.foldl step e

/-- The payloads the UI layers actually emit: `ui:player-clicked` always
carries player 1 or 2 (src/modules/ui/shell.js lines 118 and 124,
src/modules/input/gestures.js lines 471 and 474). -/
def UiEv.valid : UiEv → Bool
  | .playerClicked p => decide (p = 1 ∨ p = 2)
  | _ => true

/-- Stimuli that stay inside one match: anything except a reset request and a
time selection, the two inputs that clear the threshold flags and delimit
matches. -/
def UiEv.inMatch : UiEv → Bool
  | .resetClicked => false
  | .timeSelected _ => false
  | _ => true

/-- `running` in the sense of the specification: the pause flag is down and
the 1 Hz scheduler is armed. -/
def runningE (e : Eng) : Bool :=
  !e.st.isPaused && e.timerOn

/-- Recogniser for a `game:low-time` emission addressed to player `p`. -/
def isLowFor (p : Nat) : Ev → Bool
  | .lowTime q _ => decide (q = p)
  | _ => false

/-- Recogniser for a `game:critical-time` emission addressed to player `p`. -/
def isCriticalFor (p : Nat) : Ev → Bool
  | .criticalTime q _ => decide (q = p)
  | _ => false

/-- Recogniser for a `game:started` emission. -/
def isStartedEv : Ev → Bool
  | .started _ => true
  | _ => false

/-- Number of `game:low-time` events for player `p` in an emission trace. -/
def countLow (p : Nat) (evs : List Ev) : Nat :=
  evs.countP (isLowFor p)

/-- Number of `game:critical-time` events for player `p`. -/
def countCritical (p : Nat) (evs : List Ev) : Nat :=
  evs.countP (isCriticalFor p)

/-- Number of `game:started` events in an emission trace. -/
def countStarted (evs : List Ev) : Nat :=
  evs.countP isStartedEv

/-- Payload sanity for the store-level time invariant: the `SET_TIME` and
`SET_DEFAULT_TIME` payloads are nonnegative.  The engine only produces these
actions on `isValidTime`-guarded paths, so its dispatches satisfy this. -/
def Action.timeNonneg : Action → Bool
  | .SET_TIME _ t => decide (0 ≤ t)
  | .SET_DEFAULT_TIME t => decide (0 ≤ t)
  | _ => true

/-- Invariant threaded through the store-level time proof: both clocks and
the reseed value are nonnegative. -/
def TimeInv (st : St) : Prop :=
  0 ≤ st.player1Time ∧ 0 ≤ st.player2Time ∧ 0 ≤ st.defaultTime

/-- Trace of one `emit`/`notify` call: the payload passed to each listener,
in invocation order, and the number of faults caught by the `try`/`catch`. -/
structure EmitTrace (α : Type) where
  delivered : List α
  faults : Nat

/-- `emit` from src/core/events.js: every listener registered for the topic
is invoked, in registration order, with the payload; a listener that throws
is caught and logged (the `catch` branch, counted here) and iteration
continues, so the call always returns to the publisher.  A listener is a
function that either returns or throws (`Except.error`). -/
def emit {α : Type} (listeners : List (α → Except String Unit)) (data : α) :
    EmitTrace α :=
  listeners.foldl
    (fun acc callback =>
      match callback data with
      | .ok _ => { delivered := acc.delivered ++ [data], faults := acc.faults }
      | .error _ => { delivered := acc.delivered ++ [data], faults := acc.faults + 1 })
    { delivered := [], faults := 0 }

/-- `notify` from src/core/state.js: the same shape over the subscribers of
one key, invoked with `(newValue, oldValue)`; a subscriber fault is caught
and logged and delivery continues to the remaining subscribers. -/
def notify {β : Type} (subs : List (β → β → Except String Unit))
    (newValue oldValue : β) : EmitTrace (β × β) :=
  subs.foldl
    (fun acc callback =>
      match callback newValue oldValue with
      | .ok _ =>
          { delivered := acc.delivered ++ [(newValue, oldValue)], faults := acc.faults }
      | .error _ =>
          { delivered := acc.delivered ++ [(newValue, oldValue)],
            faults := acc.faults + 1 })
    { delivered := [], faults := 0 }

/-- Defunctionalised behaviour of a user callback handed to `once`
(src/core/events.js).  `reemit = true` models a callback whose body
synchronously publishes the same topic again, the re-entrant case; it only
does so on its first invocation, as a real consumer guarding on its own state
would, so that the cascade terminates. -/
structure OnceCb where
  reemit : Bool
  deriving Repr, DecidableEq

/-- Bus state for a single topic on which `once` has registered its wrapper:
`regs` is the listener array for the topic (the wrapper is registration 0,
`off` filters it out, replacing the array) and `count` is the total number of
invocations of the user callback. -/
structure BusSt where
  regs : List Nat
  count : Nat
  deriving Repr, DecidableEq

/-- The topic right after `once(topic, callback)`: the wrapper registered,
the callback never invoked. -/
def onceInit : BusSt :=
  { regs := [0], count := 0 }

/-- The `forEach` of `emit` over the snapshot of the listener array: run the
listener body `f` once per element of the snapshot. -/
def deliverList (f : BusSt → BusSt) : List Nat → BusSt → BusSt
  | [], st => st
  | _ :: rest, st => deliverList f rest (f st)

/-- `emit` of src/core/events.js specialised to the topic of `onceInit`.
The source iterates `listeners[eventName].forEach(...)` over the array
captured when the call starts, and `off` replaces the array with a filtered
copy, so a removal during delivery does not stop the iteration over the
snapshot.  The listener body inlined here is the wrapper installed by
`once`: run the user callback (count the invocation; when `reemit` is set
and this is the first invocation, publish the topic again re-entrantly),
then `off` the wrapper — the unsubscription happens only after the callback
has returned.  `fuel` bounds the nesting depth of re-entrant publishes; each
publish consumes one unit, and a publish with no fuel delivers nothing. -/
def emitOnce (cb : OnceCb) : Nat → BusSt → BusSt
  | 0, st => st
  | fuel + 1, st =>
      deliverList
        (fun s =>
          let invoked := { s with count := s.count + 1 }
          let afterCb :=
            if cb.reemit = true ∧ s.count = 0 then emitOnce cb fuel invoked
            else invoked
          { afterCb with regs := afterCb.regs.filter (fun r => r != 0) })
        st.regs st

/-- Invariant for the non-re-entrant `once` proof: either the wrapper is
still registered and the callback has never run, or the wrapper is gone and
the callback has run at most once. -/
def OnceInv (st : BusSt) : Prop :=
  (st.regs = [0] ∧ st.count = 0) ∨ (st.regs = [] ∧ st.count ≤ 1)

/-- Invariant for the edge-trigger proof, for one player `p`: a clear flag
means no event has fired yet, and at most one event has fired, for each of
the two thresholds. -/
def ThresholdInv (p : Nat) (e : Eng) : Prop :=
  ((getFlags e p).low = false → countLow p e.events = 0) ∧
    countLow p e.events ≤ 1 ∧
    ((getFlags e p).critical = false → countCritical p e.events = 0) ∧
    countCritical p e.events ≤ 1

/-- Invariant for the match-log proof: before any `game:started` everything
is at its reset shape, and while at most one game has started the match log
is exactly as long as the two move counters combined. -/
def MatchInv (e : Eng) : Prop :=
  (countStarted e.events = 0 →
      e.st.activePlayer = 0 ∧ e.st.player1Moves = 0 ∧ e.st.player2Moves = 0 ∧
        e.st.matchMoves = []) ∧
    (countStarted e.events = 1 →
      e.st.matchMoves.length = e.st.player1Moves + e.st.player2Moves)

lemma timeInv_dispatch {st : St} {a : Action} (h : TimeInv st)
    (ha : a.timeNonneg = true) : TimeInv (dispatchA st a) := by
  obtain ⟨h1, h2, h3⟩ := h
  cases a <;>
    simp only [dispatchA, Action.timeNonneg, decide_eq_true_eq, TimeInv] at * <;>
    (try split_ifs) <;> (try simp_all) <;> omega

lemma timeInv_foldl :
    ∀ (acts : List Action) (st : St), TimeInv st →
      (∀ a ∈ acts, a.timeNonneg = true) → TimeInv (acts.foldl dispatchA st)
  | [], _, h, _ => h
  | a :: rest, st, h, hall =>
      timeInv_foldl rest (dispatchA st a)
        (timeInv_dispatch h (hall a (by simp)))
        (fun b hb => hall b (by simp [hb]))

@[simp] lemma statsListener_events (e : Eng) (ev : Ev) :
    (statsListener e ev).events = e.events := by
  cases ev <;> rfl

@[simp] lemma statsListener_timerOn (e : Eng) (ev : Ev) :
    (statsListener e ev).timerOn = e.timerOn := by
  cases ev <;> rfl

@[simp] lemma statsListener_flags1 (e : Eng) (ev : Ev) :
    (statsListener e ev).flags1 = e.flags1 := by
  cases ev <;> rfl

@[simp] lemma statsListener_flags2 (e : Eng) (ev : Ev) :
    (statsListener e ev).flags2 = e.flags2 := by
  cases ev <;> rfl

@[simp] lemma statsListener_activePlayer (e : Eng) (ev : Ev) :
    (statsListener e ev).st.activePlayer = e.st.activePlayer := by
  cases ev <;> rfl

@[simp] lemma statsListener_isPaused (e : Eng) (ev : Ev) :
    (statsListener e ev).st.isPaused = e.st.isPaused := by
  cases ev <;> rfl

@[simp] lemma statsListener_player1Time (e : Eng) (ev : Ev) :
    (statsListener e ev).st.player1Time = e.st.player1Time := by
  cases ev <;> rfl

@[simp] lemma statsListener_player2Time (e : Eng) (ev : Ev) :
    (statsListener e ev).st.player2Time = e.st.player2Time := by
  cases ev <;> rfl

@[simp] lemma statsListener_player1Moves (e : Eng) (ev : Ev) :
    (statsListener e ev).st.player1Moves = e.st.player1Moves := by
  cases ev <;> rfl

@[simp] lemma statsListener_player2Moves (e : Eng) (ev : Ev) :
    (statsListener e ev).st.player2Moves = e.st.player2Moves := by
  cases ev <;> rfl

@[simp] lemma statsListener_defaultTime (e : Eng) (ev : Ev) :
    (statsListener e ev).st.defaultTime = e.st.defaultTime := by
  cases ev <;> rfl

@[simp] lemma statsListener_tickEv (e : Eng) (p : Nat) (t : Int) :
    statsListener e (.tickEv p t) = e := rfl

@[simp] lemma statsListener_lowTime (e : Eng) (p : Nat) (t : Int) :
    statsListener e (.lowTime p t) = e := rfl

@[simp] lemma statsListener_criticalTime (e : Eng) (p : Nat) (t : Int) :
    statsListener e (.criticalTime p t) = e := rfl

@[simp] lemma statsListener_victory (e : Eng) (w l : Nat) (t : Int) :
    statsListener e (.victory w l t) = e := rfl

@[simp] lemma statsListener_pausedEv (e : Eng) :
    statsListener e .pausedEv = e := rfl

@[simp] lemma statsListener_resumedEv (e : Eng) :
    statsListener e .resumedEv = e := rfl

@[simp] lemma statsListener_resetEv (e : Eng) :
    statsListener e .resetEv = e := rfl

@[simp] lemma statsListener_started_matchMoves (e : Eng) (p : Nat) :
    (statsListener e (.started p)).st.matchMoves = [] := rfl

@[simp] lemma statsListener_switched_matchMoves (e : Eng) (f t m : Nat) :
    (statsListener e (.playerSwitched f t m)).st.matchMoves =
      e.st.matchMoves ++
        [⟨f, if f = 1 then e.st.player1Time
             else if f = 2 then e.st.player2Time else 0⟩] := rfl

@[simp] lemma emitE_events (e : Eng) (ev : Ev) :
    (emitE e ev).events = e.events ++ [ev] := by
  simp [emitE]

@[simp] lemma emitE_timerOn (e : Eng) (ev : Ev) :
    (emitE e ev).timerOn = e.timerOn := by
  simp [emitE]

@[simp] lemma emitE_flags1 (e : Eng) (ev : Ev) :
    (emitE e ev).flags1 = e.flags1 := by
  simp [emitE]

@[simp] lemma emitE_flags2 (e : Eng) (ev : Ev) :
    (emitE e ev).flags2 = e.flags2 := by
  simp [emitE]

@[simp] lemma emitE_activePlayer (e : Eng) (ev : Ev) :
    (emitE e ev).st.activePlayer = e.st.activePlayer := by
  simp [emitE]

@[simp] lemma emitE_isPaused (e : Eng) (ev : Ev) :
    (emitE e ev).st.isPaused = e.st.isPaused := by
  simp [emitE]

@[simp] lemma emitE_player1Time (e : Eng) (ev : Ev) :
    (emitE e ev).st.player1Time = e.st.player1Time := by
  simp [emitE]

@[simp] lemma emitE_player2Time (e : Eng) (ev : Ev) :
    (emitE e ev).st.player2Time = e.st.player2Time := by
  simp [emitE]

@[simp] lemma emitE_player1Moves (e : Eng) (ev : Ev) :
    (emitE e ev).st.player1Moves = e.st.player1Moves := by
  simp [emitE]

@[simp] lemma emitE_player2Moves (e : Eng) (ev : Ev) :
    (emitE e ev).st.player2Moves = e.st.player2Moves := by
  simp [emitE]

@[simp] lemma dispatchE_timerOn (e : Eng) (a : Action) :
    (dispatchE e a).timerOn = e.timerOn := rfl

@[simp] lemma dispatchE_flags1 (e : Eng) (a : Action) :
    (dispatchE e a).flags1 = e.flags1 := rfl

@[simp] lemma dispatchE_flags2 (e : Eng) (a : Action) :
    (dispatchE e a).flags2 = e.flags2 := rfl

@[simp] lemma dispatchE_events (e : Eng) (a : Action) :
    (dispatchE e a).events = e.events := rfl

@[simp] lemma dispatchE_st (e : Eng) (a : Action) :
    (dispatchE e a).st = dispatchA e.st a := rfl

@[simp] lemma dispatchA_setActive (st : St) (p : Nat) :
    dispatchA st (.SET_ACTIVE_PLAYER p) = { st with activePlayer := p } := rfl

@[simp] lemma dispatchA_setPause (st : St) (b : Bool) :
    dispatchA st (.SET_PAUSE b) = { st with isPaused := b } := rfl

@[simp] lemma dispatchA_updateStats (st : St) (m : List MoveRec) :
    dispatchA st (.UPDATE_MATCH_STATS m) = { st with matchMoves := m } := rfl

@[simp] lemma dispatchA_setDefault (st : St) (t : Int) :
    dispatchA st (.SET_DEFAULT_TIME t) = { st with defaultTime := t } := rfl

@[simp] lemma dispatchA_reset (st : St) :
    dispatchA st .RESET_GAME =
      { st with
        player1Time := st.defaultTime
        player2Time := st.defaultTime
        player1Moves := 0
        player2Moves := 0
        activePlayer := 0
        isPaused := true
        matchMoves := [] } := rfl

@[simp] lemma dispatchA_settime_activePlayer (st : St) (p : Nat) (t : Int) :
    (dispatchA st (.SET_TIME p t)).activePlayer = st.activePlayer := by
  simp only [dispatchA]; split_ifs <;> rfl

@[simp] lemma dispatchA_settime_isPaused (st : St) (p : Nat) (t : Int) :
    (dispatchA st (.SET_TIME p t)).isPaused = st.isPaused := by
  simp only [dispatchA]; split_ifs <;> rfl

@[simp] lemma dispatchA_settime_player1Moves (st : St) (p : Nat) (t : Int) :
    (dispatchA st (.SET_TIME p t)).player1Moves = st.player1Moves := by
  simp only [dispatchA]; split_ifs <;> rfl

@[simp] lemma dispatchA_settime_player2Moves (st : St) (p : Nat) (t : Int) :
    (dispatchA st (.SET_TIME p t)).player2Moves = st.player2Moves := by
  simp only [dispatchA]; split_ifs <;> rfl

@[simp] lemma dispatchA_settime_matchMoves (st : St) (p : Nat) (t : Int) :
    (dispatchA st (.SET_TIME p t)).matchMoves = st.matchMoves := by
  simp only [dispatchA]; split_ifs <;> rfl

@[simp] lemma dispatchA_decrement_activePlayer (st : St) (p : Nat) :
    (dispatchA st (.DECREMENT_TIME p)).activePlayer = st.activePlayer := by
  simp only [dispatchA]; split_ifs <;> rfl

@[simp] lemma dispatchA_decrement_isPaused (st : St) (p : Nat) :
    (dispatchA st (.DECREMENT_TIME p)).isPaused = st.isPaused := by
  simp only [dispatchA]; split_ifs <;> rfl

@[simp] lemma dispatchA_decrement_player1Moves (st : St) (p : Nat) :
    (dispatchA st (.DECREMENT_TIME p)).player1Moves = st.player1Moves := by
  simp only [dispatchA]; split_ifs <;> rfl

@[simp] lemma dispatchA_decrement_player2Moves (st : St) (p : Nat) :
    (dispatchA st (.DECREMENT_TIME p)).player2Moves = st.player2Moves := by
  simp only [dispatchA]; split_ifs <;> rfl

@[simp] lemma dispatchA_decrement_matchMoves (st : St) (p : Nat) :
    (dispatchA st (.DECREMENT_TIME p)).matchMoves = st.matchMoves := by
  simp only [dispatchA]; split_ifs <;> rfl

@[simp] lemma dispatchA_increment_activePlayer (st : St) (p : Nat) :
    (dispatchA st (.INCREMENT_MOVES p)).activePlayer = st.activePlayer := by
  simp only [dispatchA]; split_ifs <;> rfl

@[simp] lemma dispatchA_increment_isPaused (st : St) (p : Nat) :
    (dispatchA st (.INCREMENT_MOVES p)).isPaused = st.isPaused := by
  simp only [dispatchA]; split_ifs <;> rfl

@[simp] lemma dispatchA_increment_player1Time (st : St) (p : Nat) :
    (dispatchA st (.INCREMENT_MOVES p)).player1Time = st.player1Time := by
  simp only [dispatchA]; split_ifs <;> rfl

@[simp] lemma dispatchA_increment_player2Time (st : St) (p : Nat) :
    (dispatchA st (.INCREMENT_MOVES p)).player2Time = st.player2Time := by
  simp only [dispatchA]; split_ifs <;> rfl

@[simp] lemma dispatchA_increment_matchMoves (st : St) (p : Nat) :
    (dispatchA st (.INCREMENT_MOVES p)).matchMoves = st.matchMoves := by
  simp only [dispatchA]; split_ifs <;> rfl

@[simp] lemma startTimer_st (e : Eng) : (startTimer e).st = e.st := by
  by_cases h : e.timerOn <;> simp [startTimer, h]

@[simp] lemma startTimer_events (e : Eng) : (startTimer e).events = e.events := by
  by_cases h : e.timerOn <;> simp [startTimer, h]

@[simp] lemma startTimer_flags1 (e : Eng) : (startTimer e).flags1 = e.flags1 := by
  by_cases h : e.timerOn <;> simp [startTimer, h]

@[simp] lemma startTimer_flags2 (e : Eng) : (startTimer e).flags2 = e.flags2 := by
  by_cases h : e.timerOn <;> simp [startTimer, h]

@[simp] lemma startTimer_timerOn (e : Eng) : (startTimer e).timerOn = true := by
  by_cases h : e.timerOn <;> simp [startTimer, h]

@[simp] lemma stopTimer_st (e : Eng) : (stopTimer e).st = e.st := by
  by_cases h : e.timerOn <;> simp [stopTimer, h]

@[simp] lemma stopTimer_events (e : Eng) : (stopTimer e).events = e.events := by
  by_cases h : e.timerOn <;> simp [stopTimer, h]

@[simp] lemma stopTimer_flags1 (e : Eng) : (stopTimer e).flags1 = e.flags1 := by
  by_cases h : e.timerOn <;> simp [stopTimer, h]

@[simp] lemma stopTimer_flags2 (e : Eng) : (stopTimer e).flags2 = e.flags2 := by
  by_cases h : e.timerOn <;> simp [stopTimer, h]

@[simp] lemma stopTimer_timerOn (e : Eng) : (stopTimer e).timerOn = false := by
  by_cases h : e.timerOn <;> simp [stopTimer, h]

@[simp] lemma resetFlags_st (e : Eng) : (resetFlags e).st = e.st := rfl

@[simp] lemma resetFlags_events (e : Eng) : (resetFlags e).events = e.events := rfl

@[simp] lemma resetFlags_timerOn (e : Eng) : (resetFlags e).timerOn = e.timerOn := rfl

@[simp] lemma setLowFlag_st (e : Eng) (p : Nat) : (setLowFlag e p).st = e.st := by
  unfold setLowFlag; split_ifs <;> rfl

@[simp] lemma setLowFlag_events (e : Eng) (p : Nat) :
    (setLowFlag e p).events = e.events := by
  unfold setLowFlag; split_ifs <;> rfl

@[simp] lemma setLowFlag_timerOn (e : Eng) (p : Nat) :
    (setLowFlag e p).timerOn = e.timerOn := by
  unfold setLowFlag; split_ifs <;> rfl

@[simp] lemma setCriticalFlag_st (e : Eng) (p : Nat) :
    (setCriticalFlag e p).st = e.st := by
  unfold setCriticalFlag; split_ifs <;> rfl

@[simp] lemma setCriticalFlag_events (e : Eng) (p : Nat) :
    (setCriticalFlag e p).events = e.events := by
  unfold setCriticalFlag; split_ifs <;> rfl

@[simp] lemma setCriticalFlag_timerOn (e : Eng) (p : Nat) :
    (setCriticalFlag e p).timerOn = e.timerOn := by
  unfold setCriticalFlag; split_ifs <;> rfl

@[simp] lemma checkLow_st (e : Eng) (q : Nat) (t : Int) :
    (checkLowThreshold e q t).st = e.st := by
  unfold checkLowThreshold
  split_ifs <;> simp [emitE]

@[simp] lemma checkLow_timerOn (e : Eng) (q : Nat) (t : Int) :
    (checkLowThreshold e q t).timerOn = e.timerOn := by
  unfold checkLowThreshold
  split_ifs <;> simp [emitE]

@[simp] lemma checkCritical_st (e : Eng) (q : Nat) (t : Int) :
    (checkCriticalThreshold e q t).st = e.st := by
  unfold checkCriticalThreshold
  split_ifs <;> simp [emitE]

@[simp] lemma checkCritical_timerOn (e : Eng) (q : Nat) (t : Int) :
    (checkCriticalThreshold e q t).timerOn = e.timerOn := by
  unfold checkCriticalThreshold
  split_ifs <;> simp [emitE]

@[simp] lemma checkTT_st (e : Eng) (q : Nat) (t : Int) :
    (checkTimeThresholds e q t).st = e.st := by
  simp [checkTimeThresholds]

@[simp] lemma checkTT_timerOn (e : Eng) (q : Nat) (t : Int) :
    (checkTimeThresholds e q t).timerOn = e.timerOn := by
  simp [checkTimeThresholds]

@[simp] lemma handleVictory_timerOn (e : Eng) (w : Nat) :
    (handleVictory e w).timerOn = false := by
  simp [handleVictory]

@[simp] lemma handleVictory_activePlayer (e : Eng) (w : Nat) :
    (handleVictory e w).st.activePlayer = 0 := by
  simp [handleVictory]

@[simp] lemma handleVictory_flags1 (e : Eng) (w : Nat) :
    (handleVictory e w).flags1 = e.flags1 := by
  simp [handleVictory]

@[simp] lemma handleVictory_flags2 (e : Eng) (w : Nat) :
    (handleVictory e w).flags2 = e.flags2 := by
  simp [handleVictory]

@[simp] lemma handleVictory_player1Moves (e : Eng) (w : Nat) :
    (handleVictory e w).st.player1Moves = e.st.player1Moves := by
  simp [handleVictory]

@[simp] lemma handleVictory_player2Moves (e : Eng) (w : Nat) :
    (handleVictory e w).st.player2Moves = e.st.player2Moves := by
  simp [handleVictory]

@[simp] lemma handleVictory_matchMoves (e : Eng) (w : Nat) :
    (handleVictory e w).st.matchMoves = e.st.matchMoves := by
  simp [handleVictory, emitE]

@[simp] lemma handleVictory_events (e : Eng) (w : Nat) :
    (handleVictory e w).events =
      e.events ++
        [.victory w (if w = 1 then 2 else 1)
          (if w = 1 then e.st.player1Time else e.st.player2Time)] := by
  simp [handleVictory]

@[simp] lemma getFlags_emitE (e : Eng) (ev : Ev) (p : Nat) :
    getFlags (emitE e ev) p = getFlags e p := by
  unfold getFlags; by_cases hp : p = 1 <;> simp [hp]

@[simp] lemma getFlags_dispatchE (e : Eng) (a : Action) (p : Nat) :
    getFlags (dispatchE e a) p = getFlags e p := by
  unfold getFlags; by_cases hp : p = 1 <;> simp [hp]

@[simp] lemma getFlags_startTimer (e : Eng) (p : Nat) :
    getFlags (startTimer e) p = getFlags e p := by
  unfold getFlags; by_cases hp : p = 1 <;> simp [hp]

@[simp] lemma getFlags_stopTimer (e : Eng) (p : Nat) :
    getFlags (stopTimer e) p = getFlags e p := by
  unfold getFlags; by_cases hp : p = 1 <;> simp [hp]

@[simp] lemma getFlags_handleVictory (e : Eng) (w : Nat) (p : Nat) :
    getFlags (handleVictory e w) p = getFlags e p := by
  unfold getFlags; by_cases hp : p = 1 <;> simp [hp]

lemma getFlags_setLow_self (e : Eng) (q : Nat) :
    (getFlags (setLowFlag e q) q).low = true := by
  by_cases hq : q = 1 <;> simp [getFlags, setLowFlag, hq]

lemma setLow_low_mono (e : Eng) (q p : Nat)
    (h : (getFlags (setLowFlag e q) p).low = false) :
    (getFlags e p).low = false := by
  by_cases hp : p = 1 <;> by_cases hq : q = 1 <;>
    simp_all [getFlags, setLowFlag, hp, hq]

lemma setLow_critical (e : Eng) (q p : Nat) :
    (getFlags (setLowFlag e q) p).critical = (getFlags e p).critical := by
  by_cases hp : p = 1 <;> by_cases hq : q = 1 <;>
    simp [getFlags, setLowFlag, hp, hq]

lemma getFlags_setCritical_self (e : Eng) (q : Nat) :
    (getFlags (setCriticalFlag e q) q).critical = true := by
  by_cases hq : q = 1 <;> simp [getFlags, setCriticalFlag, hq]

lemma setCritical_critical_mono (e : Eng) (q p : Nat)
    (h : (getFlags (setCriticalFlag e q) p).critical = false) :
    (getFlags e p).critical = false := by
  by_cases hp : p = 1 <;> by_cases hq : q = 1 <;>
    simp_all [getFlags, setCriticalFlag, hp, hq]

lemma setCritical_low (e : Eng) (q p : Nat) :
    (getFlags (setCriticalFlag e q) p).low = (getFlags e p).low := by
  by_cases hp : p = 1 <;> by_cases hq : q = 1 <;>
    simp [getFlags, setCriticalFlag, hp, hq]

lemma countLow_snoc (p : Nat) (evs : List Ev) (ev : Ev) :
    countLow p (evs ++ [ev]) =
      countLow p evs + (if isLowFor p ev = true then 1 else 0) := by
  simp [countLow, List.countP_append, List.countP_cons]

lemma countCritical_snoc (p : Nat) (evs : List Ev) (ev : Ev) :
    countCritical p (evs ++ [ev]) =
      countCritical p evs + (if isCriticalFor p ev = true then 1 else 0) := by
  simp [countCritical, List.countP_append, List.countP_cons]

lemma countStarted_snoc (evs : List Ev) (ev : Ev) :
    countStarted (evs ++ [ev]) =
      countStarted evs + (if isStartedEv ev = true then 1 else 0) := by
  simp [countStarted, List.countP_append, List.countP_cons]

/-- Transfer of the threshold invariant along a state change that does not
touch player `p`'s flags or event counts. -/
lemma thresholdInv_neutral {e e2 : Eng} {p : Nat}
    (hf : getFlags e2 p = getFlags e p)
    (hl : countLow p e2.events = countLow p e.events)
    (hc : countCritical p e2.events = countCritical p e.events)
    (h : ThresholdInv p e) : ThresholdInv p e2 := by
  obtain ⟨h1, h2, h3, h4⟩ := h
  exact ⟨fun hh => by rw [hl]; exact h1 (by rw [← hf]; exact hh), by omega,
    fun hh => by rw [hc]; exact h3 (by rw [← hf]; exact hh), by omega⟩

lemma thresholdInv_checkLow (e : Eng) (q : Nat) (t : Int) (p : Nat)
    (h : ThresholdInv p e) : ThresholdInv p (checkLowThreshold e q t) := by
  obtain ⟨h1, h2, h3, h4⟩ := h
  unfold checkLowThreshold
  split_ifs with hc
  · by_cases hpq : q = p
    · subst hpq
      have hcount : countLow q e.events = 0 := h1 hc.2
      refine ⟨?_, ?_, ?_, ?_⟩
      · intro hfl
        simp only [getFlags_emitE] at hfl
        rw [getFlags_setLow_self] at hfl
        cases hfl
      · simp only [emitE_events, countLow_snoc, isLowFor]
        simp [hcount]
      · intro hfl
        simp only [getFlags_emitE] at hfl
        rw [setLow_critical] at hfl
        simp only [emitE_events, countCritical_snoc, isLowFor, isCriticalFor]
        simp [h3 hfl]
      · simp only [emitE_events, countCritical_snoc, isCriticalFor]
        simp [h4]
    · refine ⟨?_, ?_, ?_, ?_⟩
      · intro hfl
        simp only [getFlags_emitE] at hfl
        have hold := setLow_low_mono e q p hfl
        simp only [emitE_events, countLow_snoc, isLowFor]
        simp [hpq, h1 hold]
      · simp only [emitE_events, countLow_snoc, isLowFor]
        simp [hpq, h2]
      · intro hfl
        simp only [getFlags_emitE] at hfl
        rw [setLow_critical] at hfl
        simp only [emitE_events, countCritical_snoc, isCriticalFor]
        simp [h3 hfl]
      · simp only [emitE_events, countCritical_snoc, isCriticalFor]
        simp [h4]
  · exact ⟨h1, h2, h3, h4⟩

lemma thresholdInv_checkCritical (e : Eng) (q : Nat) (t : Int) (p : Nat)
    (h : ThresholdInv p e) : ThresholdInv p (checkCriticalThreshold e q t) := by
  obtain ⟨h1, h2, h3, h4⟩ := h
  unfold checkCriticalThreshold
  split_ifs with hc
  · by_cases hpq : q = p
    · subst hpq
      have hcount : countCritical q e.events = 0 := h3 hc.2
      refine ⟨?_, ?_, ?_, ?_⟩
      · intro hfl
        simp only [getFlags_emitE] at hfl
        rw [setCritical_low] at hfl
        simp only [emitE_events, countLow_snoc, isLowFor, isCriticalFor]
        simp [h1 hfl]
      · simp only [emitE_events, countLow_snoc, isLowFor]
        simp [h2]
      · intro hfl
        simp only [getFlags_emitE] at hfl
        rw [getFlags_setCritical_self] at hfl
        cases hfl
      · simp only [emitE_events, countCritical_snoc, isCriticalFor]
        simp [hcount]
    · refine ⟨?_, ?_, ?_, ?_⟩
      · intro hfl
        simp only [getFlags_emitE] at hfl
        rw [setCritical_low] at hfl
        simp only [emitE_events, countLow_snoc, isLowFor]
        simp [h1 hfl]
      · simp only [emitE_events, countLow_snoc, isLowFor]
        simp [h2]
      · intro hfl
        simp only [getFlags_emitE] at hfl
        have hold := setCritical_critical_mono e q p hfl
        simp only [emitE_events, countCritical_snoc, isCriticalFor]
        simp [hpq, h3 hold]
      · simp only [emitE_events, countCritical_snoc, isCriticalFor]
        simp [hpq, h4]
  · exact ⟨h1, h2, h3, h4⟩

lemma thresholdInv_tickBody (p ap : Nat) (t : Int) (e : Eng)
    (h : ThresholdInv p e) :
    ThresholdInv p (checkTimeThresholds (emitE e (.tickEv ap t)) ap t) := by
  unfold checkTimeThresholds
  apply thresholdInv_checkCritical
  apply thresholdInv_checkLow
  exact thresholdInv_neutral (by simp)
    (by simp [countLow_snoc, isLowFor])
    (by simp [countCritical_snoc, isCriticalFor]) h

lemma thresholdInv_handleVictory (p w : Nat) (e : Eng) (h : ThresholdInv p e) :
    ThresholdInv p (handleVictory e w) :=
  thresholdInv_neutral (by simp)
    (by simp [countLow_snoc, isLowFor])
    (by simp [countCritical_snoc, isCriticalFor]) h

lemma thresholdInv_step (p : Nat) (e : Eng) (ev : UiEv)
    (hm : ev.inMatch = true) (h : ThresholdInv p e) :
    ThresholdInv p (step e ev) := by
  cases ev with
  | startClicked =>
      simp only [step]
      unfold handleStart
      split_ifs with hc
      · exact thresholdInv_neutral (by simp)
          (by simp [countLow_snoc, isLowFor])
          (by simp [countCritical_snoc, isCriticalFor]) h
      · exact h
  | pauseClicked =>
      simp only [step]
      unfold handlePause
      split_ifs with h0 hp
      · exact h
      all_goals
        exact thresholdInv_neutral (by simp)
          (by simp [countLow_snoc, isLowFor])
          (by simp [countCritical_snoc, isCriticalFor]) h
  | resetClicked =>
      simp [UiEv.inMatch] at hm
  | playerClicked q =>
      simp only [step, handlePlayerClick]
      by_cases hcan : canPlayerSwitch q e.st.activePlayer = true
      · rw [if_pos hcan]
        by_cases hpause : e.st.isPaused = true ∧ e.st.activePlayer ≠ 0
        · rw [if_pos hpause]
          exact h
        · rw [if_neg hpause]
          by_cases hzero : e.st.activePlayer = 0
          · rw [if_pos hzero]
            exact thresholdInv_neutral (by simp)
              (by simp [countLow_snoc, isLowFor])
              (by simp [countCritical_snoc, isCriticalFor]) h
          · rw [if_neg hzero]
            exact thresholdInv_neutral (by simp)
              (by simp [countLow_snoc, isLowFor])
              (by simp [countCritical_snoc, isCriticalFor]) h
      · rw [if_neg hcan]
        exact h
  | timeSelected s =>
      simp [UiEv.inMatch] at hm
  | tickFire =>
      simp only [step]
      split_ifs with htimer
      · simp only [tick]
        by_cases hguard : e.st.activePlayer = 0 ∨ e.st.isPaused = true
        · rw [if_pos hguard]
          exact h
        · rw [if_neg hguard]
          have hd : ThresholdInv p
              (dispatchE e (.DECREMENT_TIME e.st.activePlayer)) :=
            thresholdInv_neutral (by simp) (by simp) (by simp) h
          split <;> split
          all_goals
            first
              | exact thresholdInv_handleVictory _ _ _
                  (thresholdInv_tickBody _ _ _ _ hd)
              | exact thresholdInv_tickBody _ _ _ _ hd
      · exact h

lemma countStarted_checkLow (e : Eng) (q : Nat) (t : Int) :
    countStarted (checkLowThreshold e q t).events = countStarted e.events := by
  unfold checkLowThreshold
  split_ifs <;> simp [countStarted_snoc, isStartedEv]

lemma countStarted_checkCritical (e : Eng) (q : Nat) (t : Int) :
    countStarted (checkCriticalThreshold e q t).events = countStarted e.events := by
  unfold checkCriticalThreshold
  split_ifs <;> simp [countStarted_snoc, isStartedEv]

lemma countStarted_checkTT (e : Eng) (q : Nat) (t : Int) :
    countStarted (checkTimeThresholds e q t).events = countStarted e.events := by
  unfold checkTimeThresholds
  rw [countStarted_checkCritical, countStarted_checkLow]

/-- Transfer of the match-log invariant along a state change that does not
touch the move counters, the match log, the active player or the number of
started games. -/
lemma matchInv_neutral {e e2 : Eng}
    (hap : e2.st.activePlayer = e.st.activePlayer)
    (hm1 : e2.st.player1Moves = e.st.player1Moves)
    (hm2 : e2.st.player2Moves = e.st.player2Moves)
    (hmm : e2.st.matchMoves = e.st.matchMoves)
    (hcs : countStarted e2.events = countStarted e.events)
    (h : MatchInv e) : MatchInv e2 := by
  obtain ⟨h0, h1⟩ := h
  constructor
  · intro hcnt
    rw [hcs] at hcnt
    obtain ⟨a, b, c, d⟩ := h0 hcnt
    exact ⟨by rw [hap, a], by rw [hm1, b], by rw [hm2, c], by rw [hmm, d]⟩
  · intro hcnt
    rw [hcs] at hcnt
    rw [hmm, hm1, hm2]
    exact h1 hcnt

/-- Invariant transfer for the active part of a tick that ends the game. -/
lemma matchInv_tickVictory {e : Eng} (ap w : Nat) (t : Int)
    (hap : e.st.activePlayer ≠ 0) (h : MatchInv e) :
    MatchInv (handleVictory
      (checkTimeThresholds
        (emitE (dispatchE e (.DECREMENT_TIME e.st.activePlayer))
          (.tickEv ap t)) ap t) w) := by
  obtain ⟨h0, h1⟩ := h
  constructor
  · intro hcnt
    have hz : countStarted e.events = 0 := by
      simpa [countStarted_snoc, isStartedEv, countStarted_checkTT]
        using hcnt
    exact absurd (h0 hz).1 hap
  · intro hcnt
    have hone : countStarted e.events = 1 := by
      simpa [countStarted_snoc, isStartedEv, countStarted_checkTT]
        using hcnt
    simpa [emitE] using h1 hone

/-- Invariant transfer for the active part of a tick with time remaining. -/
lemma matchInv_tickNoVictory {e : Eng} (ap : Nat) (t : Int) (h : MatchInv e) :
    MatchInv (checkTimeThresholds
      (emitE (dispatchE e (.DECREMENT_TIME e.st.activePlayer))
        (.tickEv ap t)) ap t) :=
  matchInv_neutral (by simp) (by simp) (by simp) (by simp [emitE])
    (by simp [countStarted_checkTT, countStarted_snoc, isStartedEv]) h

lemma matchInv_step (e : Eng) (ev : UiEv) (hv : ev.valid = true)
    (h : MatchInv e) : MatchInv (step e ev) := by
  cases ev with
  | startClicked =>
      simp only [step]
      unfold handleStart
      split_ifs with hc
      · exact matchInv_neutral (by simp) (by simp) (by simp)
          (by simp [emitE]) (by simp [countStarted_snoc, isStartedEv]) h
      · exact h
  | pauseClicked =>
      simp only [step]
      unfold handlePause
      split_ifs with h0 hp
      · exact h
      all_goals
        exact matchInv_neutral (by simp) (by simp) (by simp)
          (by simp [emitE]) (by simp [countStarted_snoc, isStartedEv]) h
  | resetClicked =>
      simp only [step]
      unfold resetGameE
      constructor
      · intro _
        refine ⟨?_, ?_, ?_, ?_⟩ <;> simp [emitE]
      · intro _
        simp [emitE]
  | playerClicked q =>
      simp only [UiEv.valid, decide_eq_true_eq] at hv
      obtain ⟨h0, h1⟩ := h
      simp only [step, handlePlayerClick]
      by_cases hcan : canPlayerSwitch q e.st.activePlayer = true
      · rw [if_pos hcan]
        by_cases hpause : e.st.isPaused = true ∧ e.st.activePlayer ≠ 0
        · rw [if_pos hpause]
          exact ⟨h0, h1⟩
        · rw [if_neg hpause]
          by_cases hzero : e.st.activePlayer = 0
          · rw [if_pos hzero]
            constructor
            · intro hcnt
              simp [countStarted_snoc, isStartedEv] at hcnt
            · intro hcnt
              simp [countStarted_snoc, isStartedEv] at hcnt
              obtain ⟨-, hb, hc2, -⟩ := h0 hcnt
              simp [emitE, hb, hc2]
          · rw [if_neg hzero]
            constructor
            · intro hcnt
              simp [countStarted_snoc, isStartedEv] at hcnt
              exact absurd (h0 hcnt).1 hzero
            · intro hcnt
              simp [countStarted_snoc, isStartedEv] at hcnt
              have hlen := h1 hcnt
              rcases hv with hv | hv <;>
                (subst hv; simp [emitE, dispatchA]; omega)
      · rw [if_neg hcan]
        exact ⟨h0, h1⟩
  | timeSelected s =>
      simp only [step]
      unfold handleTimeSelected setTimeE
      split_ifs with hval
      · exact matchInv_neutral (by simp) (by simp) (by simp) (by simp)
          (by simp) h
      · exact h
  | tickFire =>
      simp only [step]
      split_ifs with htimer
      · simp only [tick]
        by_cases hguard : e.st.activePlayer = 0 ∨ e.st.isPaused = true
        · rw [if_pos hguard]
          exact h
        · rw [if_neg hguard]
          have hap : e.st.activePlayer ≠ 0 := (not_or.mp hguard).1
          split <;> split
          all_goals
            first
              | exact matchInv_tickVictory _ _ _ hap h
              | exact matchInv_tickNoVictory _ _ h
      · exact h

lemma runEng_inv {P : Eng → Prop} {Q : UiEv → Bool}
    (hstep : ∀ e ev, Q ev = true → P e → P (step e ev)) :
    ∀ (tr : List UiEv) (e : Eng), P e → (∀ ev ∈ tr, Q ev = true) →
      P (runEng e tr)
  | [], _, h, _ => h
  | ev :: rest, e, h, hall => by
      have h1 : P (step e ev) := hstep e ev (hall ev (by simp)) h
      have h2 : ∀ x ∈ rest, Q x = true := fun x hx => hall x (by simp [hx])
      simpa [runEng] using runEng_inv hstep rest (step e ev) h1 h2

lemma timer_owner_step (e : Eng) (ev : UiEv) (hv : ev.valid = true)
    (h : e.timerOn = true → e.st.activePlayer ≠ 0) :
    (step e ev).timerOn = true → (step e ev).st.activePlayer ≠ 0 := by
  cases ev with
  | startClicked =>
      simp only [step]
      unfold handleStart
      split_ifs with hc
      · intro _
        simpa using hc.1
      · exact h
  | pauseClicked =>
      simp only [step]
      unfold handlePause
      split_ifs with h0 hp
      · exact h
      · intro _
        simpa using h0
      · intro htimer
        simp at htimer
  | resetClicked =>
      simp only [step]
      unfold resetGameE
      intro htimer
      simp at htimer
  | playerClicked p =>
      simp only [UiEv.valid, decide_eq_true_eq] at hv
      simp only [step, handlePlayerClick]
      by_cases hcan : canPlayerSwitch p e.st.activePlayer = true
      · rw [if_pos hcan]
        by_cases hpause : e.st.isPaused = true ∧ e.st.activePlayer ≠ 0
        · rw [if_pos hpause]
          exact h
        · rw [if_neg hpause]
          by_cases hzero : e.st.activePlayer = 0
          · rw [if_pos hzero]
            intro _
            simp only [emitE_activePlayer, startTimer_st, dispatchE_st,
              dispatchA_setPause, dispatchA_setActive]
            rcases hv with hv | hv <;> simp [hv]
          · rw [if_neg hzero]
            intro _
            by_cases hp1 : p = 1 <;>
              simp [emitE_activePlayer, dispatchE_st, dispatchA_setActive, hp1]
      · rw [if_neg hcan]
        exact h
  | timeSelected s =>
      simp only [step]
      unfold handleTimeSelected setTimeE
      split_ifs with hval
      · intro htimer
        simp only [resetFlags_timerOn, dispatchE_timerOn] at htimer
        simpa using h htimer
      · exact h
  | tickFire =>
      simp only [step]
      split_ifs with htimer
      · simp only [tick]
        by_cases hguard : e.st.activePlayer = 0 ∨ e.st.isPaused = true
        · rw [if_pos hguard]
          exact h
        · rw [if_neg hguard]
          split <;> split
          all_goals
            first
              | (intro hv2
                 simp only [handleVictory_timerOn] at hv2
                 exact Bool.noConfusion hv2)
              | (intro _
                 simp only [checkTT_st, emitE_activePlayer, dispatchE_st,
                   dispatchA_decrement_activePlayer]
                 exact (not_or.mp hguard).1)
      · exact h

lemma emitOnce_pure_inv (f : Nat) (st : BusSt) (h : OnceInv st) :
    OnceInv (emitOnce ⟨false⟩ f st) := by
  cases f with
  | zero => simpa [emitOnce] using h
  | succ n =>
      rcases h with ⟨hr, hc⟩ | ⟨hr, hc⟩
      · right
        constructor <;> simp [emitOnce, deliverList, hr, hc]
      · right
        constructor <;> simp [emitOnce, deliverList, hr, hc]

lemma onceInv_foldl :
    ∀ (fuels : List Nat) (st : BusSt), OnceInv st →
      OnceInv (fuels.foldl (fun acc f => emitOnce ⟨false⟩ f acc) st)
  | [], _, h => h
  | f :: rest, st, h => onceInv_foldl rest _ (emitOnce_pure_inv f st h)

/-- C1 (counterexample): a single `SET_TIME` dispatch with a negative payload
drives `player1Time` below zero — `dispatch` stores the payload unvalidated,
so not every sequence of dispatch calls keeps the clocks nonnegative. -/
theorem dispatch_negative_time_reachable :
    (runStore [Action.SET_TIME 1 (-5)]).player1Time < 0 := by
  decide

/-- C1 (amended): for every sequence of dispatch calls from the initial state
in which each `SET_TIME` / `SET_DEFAULT_TIME` payload is nonnegative (which
is all the engine ever dispatches, its seeds being `isValidTime`-guarded),
both players' remaining times are nonnegative at every observable point; in
particular `DECREMENT_TIME` never drives a clock negative — at zero the
decrement branch is skipped, leaving zero. -/
theorem store_time_nonneg (acts : List Action)
    (h : ∀ a ∈ acts, a.timeNonneg = true) :
    0 ≤ (runStore acts).player1Time ∧ 0 ≤ (runStore acts).player2Time := by
  have hinv : TimeInv (runStore acts) :=
    timeInv_foldl acts initialState (by simp [TimeInv, initialState]) h
  exact ⟨hinv.1, hinv.2.1⟩

theorem store_time_nonneg_witness :
    0 ≤ (runStore [Action.SET_TIME 1 2, Action.DECREMENT_TIME 1,
        Action.DECREMENT_TIME 1, Action.DECREMENT_TIME 1]).player1Time ∧
      0 ≤ (runStore [Action.SET_TIME 1 2, Action.DECREMENT_TIME 1,
        Action.DECREMENT_TIME 1, Action.DECREMENT_TIME 1]).player2Time :=
  store_time_nonneg
    [Action.SET_TIME 1 2, Action.DECREMENT_TIME 1, Action.DECREMENT_TIME 1,
      Action.DECREMENT_TIME 1] (by decide)

/-- C8: during an `emit` (and likewise a store `notify`), every registered
listener is invoked, in registration order, with the same payload, whether
or not other listeners throw — a fault is caught at the bus/store boundary
and delivery continues — and the call itself returns normally (the functions
are total: the `catch` keeps faults internal). -/
theorem listener_fault_isolation :
    (∀ (α : Type) (ls : List (α → Except String Unit)) (data : α),
        (emit ls data).delivered = ls.map fun _ => data) ∧
      (∀ (β : Type) (subs : List (β → β → Except String Unit)) (nv ov : β),
        (notify subs nv ov).delivered = subs.map fun _ => (nv, ov)) := by
  constructor
  · intro α ls data
    suffices h : ∀ (l : List (α → Except String Unit)) (acc : EmitTrace α),
        (l.foldl (fun acc callback =>
          match callback data with
          | .ok _ => { delivered := acc.delivered ++ [data], faults := acc.faults }
          | .error _ =>
              { delivered := acc.delivered ++ [data], faults := acc.faults + 1 })
          acc).delivered = acc.delivered ++ l.map fun _ => data by
      simpa [emit] using h ls { delivered := [], faults := 0 }
    intro l
    induction l with
    | nil => intro acc; simp
    | cons c rest ih =>
        intro acc
        cases hc : c data <;> simp [hc, ih]
  · intro β subs nv ov
    suffices h : ∀ (l : List (β → β → Except String Unit)) (acc : EmitTrace (β × β)),
        (l.foldl (fun acc callback =>
          match callback nv ov with
          | .ok _ =>
              { delivered := acc.delivered ++ [(nv, ov)], faults := acc.faults }
          | .error _ =>
              { delivered := acc.delivered ++ [(nv, ov)], faults := acc.faults + 1 })
          acc).delivered = acc.delivered ++ l.map fun _ => (nv, ov) by
      simpa [notify] using h subs { delivered := [], faults := 0 }
    intro l
    induction l with
    | nil => intro acc; simp
    | cons c rest ih =>
        intro acc
        cases hc : c nv ov <;> simp [hc, ih]

/-- C2 (counterexample): pausing mid-game is a reachable state with an
active player but `running = false` (interval disarmed, pause flag up), so
`activePlayer = 0` is not equivalent to `running = false` — the backward
implication fails. -/
theorem paused_game_keeps_owner :
    (runEng engInit [UiEv.timeSelected 300, UiEv.playerClicked 1,
        UiEv.pauseClicked]).st.activePlayer = 1 ∧
      runningE (runEng engInit [UiEv.timeSelected 300, UiEv.playerClicked 1,
        UiEv.pauseClicked]) = false := by
  decide

/-- C2 (amended): the forward implication holds — after every sequence of
UI stimuli (with the player ids the UI actually emits), whenever the game is
running (`running = true`) the active player is nonzero; equivalently,
`activePlayer = 0` implies `running = false`.  The reverse direction is
refuted by the paused mid-game state. -/
theorem running_has_owner (tr : List UiEv)
    (hv : ∀ ev ∈ tr, ev.valid = true)
    (hrun : runningE (runEng engInit tr) = true) :
    (runEng engInit tr).st.activePlayer ≠ 0 := by
  have hinv :
      (runEng engInit tr).timerOn = true →
        (runEng engInit tr).st.activePlayer ≠ 0 :=
    runEng_inv (P := fun e => e.timerOn = true → e.st.activePlayer ≠ 0)
      (Q := UiEv.valid) timer_owner_step tr engInit (by simp [engInit]) hv
  apply hinv
  simp only [runningE, Bool.and_eq_true] at hrun
  exact hrun.2

theorem running_has_owner_witness :
    (∀ ev ∈ [UiEv.timeSelected 300, UiEv.playerClicked 1], ev.valid = true) ∧
      runningE (runEng engInit [UiEv.timeSelected 300, UiEv.playerClicked 1]) =
        true ∧
      (runEng engInit
          [UiEv.timeSelected 300, UiEv.playerClicked 1]).st.activePlayer ≠ 0 :=
  ⟨by decide, by decide,
    running_has_owner [UiEv.timeSelected 300, UiEv.playerClicked 1] (by decide)
      (by decide)⟩

/-- C4: seeding 5 seconds, player 1 starting with a click, and five ticks
with no switch: on the fifth tick player 1's time is 0, the engine emits
`game:victory` with winner 2, loser 1 and the winner's 5 seconds remaining,
and the active player becomes 0.  The full emission trace is pinned down. -/
theorem seed5_timeout_victory :
    (runEng engInit [UiEv.timeSelected 5, UiEv.playerClicked 1, UiEv.tickFire,
        UiEv.tickFire, UiEv.tickFire, UiEv.tickFire,
        UiEv.tickFire]).st.player1Time = 0 ∧
      (runEng engInit [UiEv.timeSelected 5, UiEv.playerClicked 1,
        UiEv.tickFire, UiEv.tickFire, UiEv.tickFire, UiEv.tickFire,
        UiEv.tickFire]).st.activePlayer = 0 ∧
      (runEng engInit [UiEv.timeSelected 5, UiEv.playerClicked 1,
          UiEv.tickFire, UiEv.tickFire, UiEv.tickFire, UiEv.tickFire,
          UiEv.tickFire]).events =
        [Ev.started 1, Ev.tickEv 1 4, Ev.tickEv 1 3, Ev.tickEv 1 2,
          Ev.tickEv 1 1, Ev.tickEv 1 0, Ev.victory 2 1 5] := by
  decide

/-- C5: seeding 300 seconds, player 1 starting, three ticks, then player 1
requesting the switch: the engine emits the turn-switch event with from 1,
to 2, move number 1; afterwards player 1 has 1 recorded move and 297 seconds
and player 2 still has 300 seconds, untouched by the switch. -/
theorem seed300_switch_at_three :
    (runEng engInit [UiEv.timeSelected 300, UiEv.playerClicked 1,
        UiEv.tickFire, UiEv.tickFire, UiEv.tickFire,
        UiEv.playerClicked 1]).events =
      [Ev.started 1, Ev.tickEv 1 299, Ev.tickEv 1 298, Ev.tickEv 1 297,
        Ev.playerSwitched 1 2 1] ∧
      (runEng engInit [UiEv.timeSelected 300, UiEv.playerClicked 1,
        UiEv.tickFire, UiEv.tickFire, UiEv.tickFire,
        UiEv.playerClicked 1]).st.player1Moves = 1 ∧
      (runEng engInit [UiEv.timeSelected 300, UiEv.playerClicked 1,
        UiEv.tickFire, UiEv.tickFire, UiEv.tickFire,
        UiEv.playerClicked 1]).st.player1Time = 297 ∧
      (runEng engInit [UiEv.timeSelected 300, UiEv.playerClicked 1,
        UiEv.tickFire, UiEv.tickFire, UiEv.tickFire,
        UiEv.playerClicked 1]).st.player2Time = 300 := by
  decide

/-- C7: while the game has an active player, a turn request from any other
player leaves the engine state — store record, scheduler, flags and emission
trace — completely unchanged: `canPlayerSwitch` rejects it and the handler
returns before dispatching anything or emitting any event (no exception; the
handler is a total function that returns the state unchanged). -/
theorem inactive_click_noop (e : Eng) (q : Nat)
    (hap : e.st.activePlayer = 1 ∨ e.st.activePlayer = 2)
    (hq : q ≠ e.st.activePlayer)
    (hrun : runningE e = true) :
    step e (.playerClicked q) = e := by
  have h0 : e.st.activePlayer ≠ 0 := by
    rcases hap with hap | hap <;> omega
  have hcan : canPlayerSwitch q e.st.activePlayer = false := by
    unfold canPlayerSwitch
    rw [if_neg h0]
    simpa using fun hh => hq hh.symm
  simp only [step, handlePlayerClick]
  rw [if_neg (by simp [hcan])]

theorem inactive_click_noop_witness :
    ((runEng engInit [UiEv.timeSelected 300,
        UiEv.playerClicked 1]).st.activePlayer = 1 ∨
      (runEng engInit [UiEv.timeSelected 300,
        UiEv.playerClicked 1]).st.activePlayer = 2) ∧
      (2 : Nat) ≠ (runEng engInit [UiEv.timeSelected 300,
        UiEv.playerClicked 1]).st.activePlayer ∧
      runningE (runEng engInit [UiEv.timeSelected 300, UiEv.playerClicked 1]) =
        true ∧
      step (runEng engInit [UiEv.timeSelected 300, UiEv.playerClicked 1])
          (.playerClicked 2) =
        runEng engInit [UiEv.timeSelected 300, UiEv.playerClicked 1] :=
  ⟨by decide, by decide, by decide,
    inactive_click_noop (runEng engInit [UiEv.timeSelected 300,
      UiEv.playerClicked 1]) 2 (by decide) (by decide) (by decide)⟩

/-- C10: while the game is paused mid-match (pause flag up, active player
nonzero), a turn request from any player — the active one included — is
silently ignored: the whole engine state is unchanged, so no turn switch and
no recorded move can happen during a pause. -/
theorem paused_click_noop (e : Eng) (p : Nat)
    (hpause : e.st.isPaused = true) (hap : e.st.activePlayer ≠ 0) :
    step e (.playerClicked p) = e := by
  simp only [step, handlePlayerClick]
  by_cases hcan : canPlayerSwitch p e.st.activePlayer = true
  · rw [if_pos hcan, if_pos ⟨hpause, hap⟩]
  · rw [if_neg hcan]

/-- C3 (counterexample): a complete match (seeded at 5 seconds, run to the
victory emission) in which player 1 receives zero `game:low-time` and zero
`game:critical-time` events — the clock never passes 60 or 10 seconds, so
"at least one of each per match" fails; only "at most one" holds. -/
theorem short_match_no_threshold_events :
    Ev.victory 2 1 5 ∈
        (runEng engInit [UiEv.timeSelected 5, UiEv.playerClicked 1,
          UiEv.tickFire, UiEv.tickFire, UiEv.tickFire, UiEv.tickFire,
          UiEv.tickFire]).events ∧
      countLow 1 (runEng engInit [UiEv.timeSelected 5, UiEv.playerClicked 1,
        UiEv.tickFire, UiEv.tickFire, UiEv.tickFire, UiEv.tickFire,
        UiEv.tickFire]).events = 0 ∧
      countCritical 1 (runEng engInit [UiEv.timeSelected 5,
        UiEv.playerClicked 1, UiEv.tickFire, UiEv.tickFire, UiEv.tickFire,
        UiEv.tickFire, UiEv.tickFire]).events = 0 := by
  decide

/-- C3 (amended): per match, each player receives at most one
`game:low-time` and at most one `game:critical-time` event: from any state
whose threshold flags for the player are clear and whose trace holds no such
event yet (the state right after a reset or a time seed), any sequence of
in-match stimuli — ticks however granular, clicks, pause toggles — emits at
most one of each for that player.  A match that never crosses a threshold
emits none, so "exactly one" weakens to "at most one". -/
theorem threshold_events_at_most_once (e0 : Eng) (tr : List UiEv) (p : Nat)
    (hfl : (getFlags e0 p).low = false)
    (hfc : (getFlags e0 p).critical = false)
    (hcl : countLow p e0.events = 0)
    (hcc : countCritical p e0.events = 0)
    (hm : ∀ ev ∈ tr, ev.inMatch = true) :
    countLow p (runEng e0 tr).events ≤ 1 ∧
      countCritical p (runEng e0 tr).events ≤ 1 := by
  have hinv : ThresholdInv p (runEng e0 tr) :=
    runEng_inv (P := ThresholdInv p) (Q := UiEv.inMatch)
      (fun e ev hq hp => thresholdInv_step p e ev hq hp) tr e0
      ⟨fun _ => hcl, by omega, fun _ => hcc, by omega⟩ hm
  exact ⟨hinv.2.1, hinv.2.2.2⟩

theorem threshold_events_at_most_once_witness :
    (getFlags engInit 1).low = false ∧
      (getFlags engInit 1).critical = false ∧
      countLow 1 engInit.events = 0 ∧
      countCritical 1 engInit.events = 0 ∧
      (∀ ev ∈ [UiEv.playerClicked 1, UiEv.tickFire, UiEv.tickFire],
        ev.inMatch = true) ∧
      countLow 1 (runEng engInit [UiEv.playerClicked 1, UiEv.tickFire,
        UiEv.tickFire]).events ≤ 1 ∧
      countCritical 1 (runEng engInit [UiEv.playerClicked 1, UiEv.tickFire,
        UiEv.tickFire]).events ≤ 1 :=
  ⟨by decide, by decide, by decide, by decide, by decide,
    threshold_events_at_most_once engInit
      [UiEv.playerClicked 1, UiEv.tickFire, UiEv.tickFire] 1 (by decide)
      (by decide) (by decide) (by decide) (by decide)⟩

/-- C6 (counterexample): between two seeds/resets the log-length equality can
break.  Seed 2 seconds; player 1 starts and switches (one move, one log
entry); player 2's clock runs out; player 1 clicks to start a second game —
`game:started` makes the stats module clear the match log while the move
counters keep their values — and switches again: the log now has 1 entry but
the counters sum to 2.  All clicks are valid and no reset intervenes. -/
theorem restart_breaks_log_equality :
    (runEng engInit [UiEv.timeSelected 2, UiEv.playerClicked 1,
        UiEv.playerClicked 1, UiEv.tickFire, UiEv.tickFire,
        UiEv.playerClicked 1, UiEv.playerClicked 1]).st.matchMoves.length =
        1 ∧
      (runEng engInit [UiEv.timeSelected 2, UiEv.playerClicked 1,
          UiEv.playerClicked 1, UiEv.tickFire, UiEv.tickFire,
          UiEv.playerClicked 1, UiEv.playerClicked 1]).st.player1Moves +
        (runEng engInit [UiEv.timeSelected 2, UiEv.playerClicked 1,
          UiEv.playerClicked 1, UiEv.tickFire, UiEv.tickFire,
          UiEv.playerClicked 1, UiEv.playerClicked 1]).st.player2Moves = 2 ∧
      countStarted (runEng engInit [UiEv.timeSelected 2, UiEv.playerClicked 1,
        UiEv.playerClicked 1, UiEv.tickFire, UiEv.tickFire,
        UiEv.playerClicked 1, UiEv.playerClicked 1]).events = 2 := by
  decide

/-- C6 (amended): within a single game — from process start (equivalently a
reset state), along any valid stimulus sequence during which at most one
`game:started` was emitted, i.e. no second game was started after a victory
without an intervening reset — the match-log length equals
`player1Moves + player2Moves`; and the turn request that starts a game
increments neither move counter and appends no log entry. -/
theorem match_log_length :
    (∀ (tr : List UiEv), (∀ ev ∈ tr, ev.valid = true) →
        countStarted (runEng engInit tr).events ≤ 1 →
        (runEng engInit tr).st.matchMoves.length =
          (runEng engInit tr).st.player1Moves +
            (runEng engInit tr).st.player2Moves) ∧
      ∀ (e : Eng) (p : Nat), e.st.activePlayer = 0 →
        (handlePlayerClick e p).st.player1Moves = e.st.player1Moves ∧
          (handlePlayerClick e p).st.player2Moves = e.st.player2Moves ∧
          (handlePlayerClick e p).st.matchMoves.length ≤
            e.st.matchMoves.length := by
  constructor
  · intro tr hv hone
    have hinv : MatchInv (runEng engInit tr) :=
      runEng_inv (P := MatchInv) (Q := UiEv.valid)
        (fun e ev hq hp => matchInv_step e ev hq hp) tr engInit
        ⟨fun _ => by simp [engInit, initialState],
          fun hcnt => by simp [engInit, countStarted] at hcnt⟩ hv
    obtain ⟨h0, h1⟩ := hinv
    rcases Nat.le_one_iff_eq_zero_or_eq_one.mp hone with hz | ho
    · obtain ⟨-, a, b, c⟩ := h0 hz
      simp [a, b, c]
    · exact h1 ho
  · intro e p hap
    simp [handlePlayerClick, canPlayerSwitch, hap, emitE]

theorem match_log_length_witness :
    ((∀ ev ∈ [UiEv.timeSelected 300, UiEv.playerClicked 1, UiEv.tickFire,
        UiEv.playerClicked 1], ev.valid = true) ∧
      countStarted (runEng engInit [UiEv.timeSelected 300,
        UiEv.playerClicked 1, UiEv.tickFire, UiEv.playerClicked 1]).events ≤
        1 ∧
      (runEng engInit [UiEv.timeSelected 300, UiEv.playerClicked 1,
          UiEv.tickFire, UiEv.playerClicked 1]).st.matchMoves.length =
        (runEng engInit [UiEv.timeSelected 300, UiEv.playerClicked 1,
          UiEv.tickFire, UiEv.playerClicked 1]).st.player1Moves +
          (runEng engInit [UiEv.timeSelected 300, UiEv.playerClicked 1,
            UiEv.tickFire, UiEv.playerClicked 1]).st.player2Moves) ∧
      engInit.st.activePlayer = 0 ∧
      (handlePlayerClick engInit 1).st.player1Moves =
        engInit.st.player1Moves ∧
      (handlePlayerClick engInit 1).st.player2Moves =
        engInit.st.player2Moves ∧
      (handlePlayerClick engInit 1).st.matchMoves.length ≤
        engInit.st.matchMoves.length :=
  ⟨⟨by decide, by decide,
      match_log_length.1 [UiEv.timeSelected 300, UiEv.playerClicked 1,
        UiEv.tickFire, UiEv.playerClicked 1] (by decide) (by decide)⟩,
    by decide, match_log_length.2 engInit 1 (by decide)⟩

/-- C9 (counterexample): a `once` listener whose callback re-entrantly
publishes the same topic from inside its body is invoked twice by a single
outer publish: the wrapper removes itself only after the callback returns,
so the nested `emit` still finds it registered. -/
theorem reentrant_once_double_invocation :
    (emitOnce ⟨true⟩ 2 onceInit).count = 2 := by
  decide

/-- C9 (amended): a listener registered through `once` is invoked at most
once across any number of publishes of its topic, provided no publish of
that same topic happens re-entrantly during delivery: for a callback that
does not republish the topic, any sequence of top-level publishes (each with
arbitrary nesting allowance) invokes it at most once.  The re-entrant case
is refuted separately. -/
theorem once_at_most_one_invocation (fuels : List Nat) :
    (fuels.foldl (fun st f => emitOnce ⟨false⟩ f st) onceInit).count ≤ 1 := by
  have h := onceInv_foldl fuels onceInit (Or.inl ⟨rfl, rfl⟩)
  rcases h with ⟨-, hc⟩ | ⟨-, hc⟩ <;> omega

theorem paused_click_noop_witness :
    (runEng engInit [UiEv.timeSelected 300, UiEv.playerClicked 1,
        UiEv.pauseClicked]).st.isPaused = true ∧
      (runEng engInit [UiEv.timeSelected 300, UiEv.playerClicked 1,
        UiEv.pauseClicked]).st.activePlayer ≠ 0 ∧
      step (runEng engInit [UiEv.timeSelected 300, UiEv.playerClicked 1,
          UiEv.pauseClicked]) (.playerClicked 1) =
        runEng engInit [UiEv.timeSelected 300, UiEv.playerClicked 1,
          UiEv.pauseClicked] :=
  ⟨by decide, by decide,
    paused_click_noop (runEng engInit [UiEv.timeSelected 300,
      UiEv.playerClicked 1, UiEv.pauseClicked]) 1 (by decide) (by decide)⟩

end ChessApp

